import Mathlib

/-!
Shallow embedding of the Boostly AE commission calculator
(`src/src/App.js`, the `computed` useMemo, lines 50-101).

JavaScript numbers are modelled as exact rationals (ℚ).  The inputs of
the embedded computation are the numeric values produced by the
presentation layer's `toNumber` helper (string parsing itself is
presentation, out of the computation's scope), so `toNumber` appears
here as the identity on already-numeric values; the normalization steps
performed inside `computed` (`Math.max(0, ...)`, `Math.floor`,
`clampPct`) are embedded faithfully.
-/

namespace Boostly

/-- Configuration record: the admin-editable state of the app
(`quotaARR`, `basePayoutAt100`, `bundle20Bonus`, `bundle35Bonus`,
lines 23-26). -/
structure Config where
  quotaARR : ℚ
  basePayoutAt100 : ℚ
  bundle20Bonus : ℚ
  bundle35Bonus : ℚ
deriving Repr, DecidableEq

/-- Sales-input record: the AE-editable state of the app
(lines 29-39). -/
structure SalesInput where
  arrSold : ℚ
  totalDeals : ℚ
  bundleCount : ℚ
  prepaidKicker : ℚ
  clawbacks : ℚ
  useOverQuotaBundleShare : Bool
  overQuotaBundleSharePct : ℚ
deriving Repr, DecidableEq

/-- Output record returned by the `computed` useMemo (lines 89-101). -/
structure PayoutBreakdown where
  arr : ℚ
  quotaArr : ℚ
  attainment : ℚ
  basePayout : ℚ
  bundlePct : ℚ
  bundleBonus : ℚ
  overARR : ℚ
  accelerator : ℚ
  kicker : ℚ
  clawbacks : ℚ
  total : ℚ
deriving Repr, DecidableEq

/-- `clampPct` helper (line 47): `Math.min(100, Math.max(0, n))`. -/
def clampPct (n : ℚ) : ℚ := min 100 (max 0 n)

/-- `const quotaArr = Math.max(0, toNumber(quotaARR))` (line 51). -/
def quotaArr (cfg : Config) : ℚ := max 0 cfg.quotaARR

/-- `const baseAt100 = Math.max(0, toNumber(basePayoutAt100))` (line 52). -/
def baseAt100 (cfg : Config) : ℚ := max 0 cfg.basePayoutAt100

/-- `const arr = Math.max(0, toNumber(arrSold))` (line 53). -/
def arr (inp : SalesInput) : ℚ := max 0 inp.arrSold

/-- `const attainment = quotaArr > 0 ? arr / quotaArr : 0` (line 58). -/
def attainment (cfg : Config) (inp : SalesInput) : ℚ :=
  if 0 < quotaArr cfg then arr inp / quotaArr cfg else 0

/-- `const basePayout = Math.min(1, attainment) * baseAt100` (line 61). -/
def basePayout (cfg : Config) (inp : SalesInput) : ℚ :=
  min 1 (attainment cfg inp) * baseAt100 cfg

/-- `const deals = Math.max(0, Math.floor(toNumber(totalDeals)))` (line 63). -/
def deals (inp : SalesInput) : ℤ := max 0 ⌊inp.totalDeals⌋

/-- `const bundles = Math.max(0, Math.floor(toNumber(bundleCount)))` (line 64). -/
def bundles (inp : SalesInput) : ℤ := max 0 ⌊inp.bundleCount⌋

/-- `const bundlePct = deals > 0 ? bundles / deals : 0` (line 65). -/
def bundlePct (inp : SalesInput) : ℚ :=
  if 0 < deals inp then (bundles inp : ℚ) / (deals inp : ℚ) else 0

/-- Bundling bonus tiers (lines 68-70): `bundle35Bonus` at `bundlePct >= 0.35`,
else `bundle20Bonus` at `bundlePct >= 0.20`, else 0.  Note that the source
applies no `Math.max(0, ...)` to the two bonus amounts. -/
def bundleBonus (cfg : Config) (inp : SalesInput) : ℚ :=
  if bundlePct inp ≥ 35 / 100 then cfg.bundle35Bonus
  else if bundlePct inp ≥ 20 / 100 then cfg.bundle20Bonus
  else 0

/-- `const overARR = Math.max(0, arr - quotaArr)` (line 73). -/
def overARR (cfg : Config) (inp : SalesInput) : ℚ :=
  max 0 (arr inp - quotaArr cfg)

/-- Accelerator (lines 76-82): `(overARR / 12) * 1.25`, plus, when the
`useOverQuotaBundleShare` flag is set,
`(overARR / 12) * (clampPct(overQuotaBundleSharePct) / 100) * 0.25`. -/
def accelerator (cfg : Config) (inp : SalesInput) : ℚ :=
  if inp.useOverQuotaBundleShare then
    overARR cfg inp / 12 * (125 / 100)
      + overARR cfg inp / 12 * (clampPct inp.overQuotaBundleSharePct / 100) * (25 / 100)
  else
    overARR cfg inp / 12 * (125 / 100)

/-- `const kicker = toNumber(prepaidKicker)` (line 84): no clamping. -/
def kicker (inp : SalesInput) : ℚ := inp.prepaidKicker

/-- `const cb = toNumber(clawbacks)` (line 85): no clamping. -/
def cb (inp : SalesInput) : ℚ := inp.clawbacks

/-- `const total = basePayout + bundleBonus + accelerator + kicker - cb`
(line 87). -/
def total (cfg : Config) (inp : SalesInput) : ℚ :=
  basePayout cfg inp + bundleBonus cfg inp + accelerator cfg inp
    + kicker inp - cb inp

/-- The whole `computed` value (lines 50-101): the returned breakdown
record. -/
def compute (cfg : Config) (inp : SalesInput) : PayoutBreakdown :=
  { arr := arr inp
    quotaArr := quotaArr cfg
    attainment := attainment cfg inp
    basePayout := basePayout cfg inp
    bundlePct := bundlePct inp
    bundleBonus := bundleBonus cfg inp
    overARR := overARR cfg inp
    accelerator := accelerator cfg inp
    kicker := kicker inp
    clawbacks := cb inp
    total := total cfg inp }

end Boostly

namespace Boostly

/-- C1: for every configuration and sales input, the returned breakdown
satisfies `total = basePayout + bundleBonus + accelerator + kicker -
clawbacks`, where `kicker` and `clawbacks` are the breakdown's own
fields. -/
theorem total_breakdown_invariant (cfg : Config) (inp : SalesInput) :
    (compute cfg inp).total
      = (compute cfg inp).basePayout + (compute cfg inp).bundleBonus
        + (compute cfg inp).accelerator + (compute cfg inp).kicker
        - (compute cfg inp).clawbacks := rfl

/-- Configuration of the reference-sheet example scenario. -/
def cfgEx : Config := ⟨72000, 5833, 500, 1000⟩

/-- Sales input of the reference-sheet example scenario. -/
def inpEx : SalesInput := ⟨93600, 22, 7, 100, 0, false, 0⟩

/-- C9: on the concrete reference-sheet input (quota 72000, base 5833,
ARR sold 93600, 22 deals, 7 bundles, kicker 100, clawbacks 0, share
toggle off) the computation returns attainment 1.3, basePayout 5833,
bundlePct 7/22, bundleBonus 500, overARR 21600, accelerator 2250 and
total 8683. -/
theorem reference_example :
    (compute cfgEx inpEx).attainment = 13 / 10
      ∧ (compute cfgEx inpEx).basePayout = 5833
      ∧ (compute cfgEx inpEx).bundlePct = 7 / 22
      ∧ (compute cfgEx inpEx).bundleBonus = 500
      ∧ (compute cfgEx inpEx).overARR = 21600
      ∧ (compute cfgEx inpEx).accelerator = 2250
      ∧ (compute cfgEx inpEx).total = 8683 := by
  norm_num [compute, attainment, basePayout, bundlePct, bundleBonus, overARR,
    accelerator, total, kicker, cb, arr, quotaArr, baseAt100, deals, bundles,
    cfgEx, inpEx, clampPct, max_def, min_def]

/-- Configuration with raw quota 0 and base payout 100. -/
def cfgC2 : Config := ⟨0, 100, 500, 1000⟩

/-- Sales input with ARR sold 50 (and everything else inert). -/
def inpC2 : SalesInput := ⟨50, 10, 2, 0, 0, false, 0⟩

/-- C2 counterexample: with normalized quota 0 the normalized ARR sold
(50) is at least the quota, the normalized `basePayoutAt100` is 100, yet
`basePayout` is 0, not `basePayoutAt100`: the capped branch of the claim
fails when `quotaArr = 0`. -/
theorem basePayout_cap_fails_at_zero_quota :
    quotaArr cfgC2 ≤ arr inpC2
      ∧ baseAt100 cfgC2 = 100
      ∧ (compute cfgC2 inpC2).basePayout ≠ baseAt100 cfgC2 := by
  norm_num [compute, basePayout, attainment, quotaArr, arr, baseAt100,
    cfgC2, inpC2, max_def, min_def]

/-- C2 (amended): for every input with normalized `quotaArr > 0`, if the
normalized `arrSold ≤ quotaArr` then `basePayout = (arrSold / quotaArr) *
basePayoutAt100`, and if `arrSold ≥ quotaArr` then `basePayout =
basePayoutAt100` (capped at full). -/
theorem basePayout_prorated_capped (cfg : Config) (inp : SalesInput)
    (hq : 0 < quotaArr cfg) :
    (arr inp ≤ quotaArr cfg →
      (compute cfg inp).basePayout = arr inp / quotaArr cfg * baseAt100 cfg)
    ∧ (quotaArr cfg ≤ arr inp →
      (compute cfg inp).basePayout = baseAt100 cfg) := by
  constructor
  · intro hle
    have h1 : arr inp / quotaArr cfg ≤ 1 := (div_le_one hq).mpr hle
    simp [compute, basePayout, attainment, hq, min_eq_right h1]
  · intro hge
    have h1 : (1 : ℚ) ≤ arr inp / quotaArr cfg := (one_le_div hq).mpr hge
    simp [compute, basePayout, attainment, hq, min_eq_left h1]

/-- Configuration for the C2 witness. -/
def cfgW2 : Config := ⟨72000, 5833, 500, 1000⟩

/-- Sales input for the C2 witness: half-quota attainment. -/
def inpW2 : SalesInput := ⟨36000, 22, 7, 100, 0, false, 0⟩

/-- C2 witness: the amended claim applied at quota 72000, ARR sold 36000. -/
theorem basePayout_prorated_capped_witness :
    0 < quotaArr cfgW2
      ∧ ((arr inpW2 ≤ quotaArr cfgW2 →
            (compute cfgW2 inpW2).basePayout
              = arr inpW2 / quotaArr cfgW2 * baseAt100 cfgW2)
        ∧ (quotaArr cfgW2 ≤ arr inpW2 →
            (compute cfgW2 inpW2).basePayout = baseAt100 cfgW2)) :=
  ⟨by norm_num [quotaArr, cfgW2, max_def],
   basePayout_prorated_capped cfgW2 inpW2 (by norm_num [quotaArr, cfgW2, max_def])⟩

/-- Configuration for the C3 counterexample. -/
def cfgC3 : Config := ⟨72000, 5833, 500, 1000⟩

/-- Sales input with clawbacks -100. -/
def inpC3 : SalesInput := ⟨0, 0, 0, 0, -100, false, 0⟩

/-- The same sales input with clawbacks 0. -/
def inpC3z : SalesInput := ⟨0, 0, 0, 0, 0, false, 0⟩

/-- C3 counterexample: the source never clamps `clawbacks` (`const cb =
toNumber(clawbacks)`, line 85), so a clawbacks input of -100 flows
through as a negative breakdown field and strictly increases `total`
relative to clawbacks 0. -/
theorem negative_clawbacks_increase_total_cex :
    (compute cfgC3 inpC3).clawbacks < 0
      ∧ (compute cfgC3 inpC3z).total < (compute cfgC3 inpC3).total := by
  norm_num [compute, total, cb, kicker, basePayout, bundleBonus, bundlePct,
    deals, bundles, attainment, quotaArr, arr, baseAt100, accelerator,
    overARR, clampPct, cfgC3, inpC3, inpC3z, max_def, min_def]

/-- C3 (amended): the clawbacks value used in the payout is the raw
(possibly negative) input, not clamped; it is always subtracted from
`total`, and `prepaidKicker` (possibly negative) is always added; hence
`total` is antitone in the clawbacks input, and in particular a negative
clawbacks input increases `total`. -/
theorem clawbacks_unclamped_subtracted (cfg : Config) (inp : SalesInput)
    (c₁ c₂ : ℚ) (h : c₁ ≤ c₂) :
    (compute cfg inp).clawbacks = inp.clawbacks
    ∧ (compute cfg inp).kicker = inp.prepaidKicker
    ∧ (compute cfg inp).total
        = (compute cfg inp).basePayout + (compute cfg inp).bundleBonus
          + (compute cfg inp).accelerator + inp.prepaidKicker - inp.clawbacks
    ∧ (compute cfg { inp with clawbacks := c₂ }).total
        ≤ (compute cfg { inp with clawbacks := c₁ }).total := by
  have heq : ∀ c : ℚ, (compute cfg { inp with clawbacks := c }).total
      = basePayout cfg inp + bundleBonus cfg inp + accelerator cfg inp
        + kicker inp - c := fun c => rfl
  refine ⟨rfl, rfl, rfl, ?_⟩
  rw [heq, heq]
  exact sub_le_sub_left h _

/-- Configuration for the C3 witness. -/
def cfgW3 : Config := ⟨72000, 5833, 500, 1000⟩

/-- Sales input for the C3 witness. -/
def inpW3 : SalesInput := ⟨93600, 22, 7, 100, 0, false, 0⟩

/-- C3 witness: the amended claim applied with clawbacks -100 versus 0. -/
theorem clawbacks_unclamped_subtracted_witness :
    (-100 : ℚ) ≤ 0
    ∧ ((compute cfgW3 inpW3).clawbacks = inpW3.clawbacks
      ∧ (compute cfgW3 inpW3).kicker = inpW3.prepaidKicker
      ∧ (compute cfgW3 inpW3).total
          = (compute cfgW3 inpW3).basePayout + (compute cfgW3 inpW3).bundleBonus
            + (compute cfgW3 inpW3).accelerator + inpW3.prepaidKicker
            - inpW3.clawbacks
      ∧ (compute cfgW3 { inpW3 with clawbacks := 0 }).total
          ≤ (compute cfgW3 { inpW3 with clawbacks := -100 }).total) :=
  ⟨by norm_num, clawbacks_unclamped_subtracted cfgW3 inpW3 (-100) 0 (by norm_num)⟩

/-- Configuration with a negative 35%-tier bonus. -/
def cfgC4 : Config := ⟨72000, 5833, 500, -100⟩

/-- Sales input with a 50% bundle rate. -/
def inpC4 : SalesInput := ⟨0, 10, 5, 0, 0, false, 0⟩

/-- C4 counterexample: the source applies no `Math.max(0, ...)` to the
bonus amounts (lines 69-70), so a raw `bundle35Bonus` of -100 is used
as-is: the breakdown's `bundleBonus` is negative. -/
theorem bundleBonus_not_clamped_cex :
    (compute cfgC4 inpC4).bundleBonus < 0 := by
  norm_num [compute, bundleBonus, bundlePct, deals, bundles,
    cfgC4, inpC4, max_def]

/-- C4 (amended): negative amounts among ARR sold, quota,
`basePayoutAt100` and the two deal counts are clamped to 0 during
normalization, so the normalized `quotaArr`, `basePayoutAt100`,
`arrSold`, `totalDeals` and `bundleCount` are non-negative for every raw
input; the two bundle bonus amounts, however, are not clamped: the
computation uses them exactly as entered (possibly negative). -/
theorem normalization_clamps_amounts (cfg : Config) (inp : SalesInput) :
    0 ≤ (compute cfg inp).quotaArr
    ∧ 0 ≤ baseAt100 cfg
    ∧ 0 ≤ (compute cfg inp).arr
    ∧ 0 ≤ deals inp
    ∧ 0 ≤ bundles inp
    ∧ ((compute cfg inp).bundleBonus = cfg.bundle35Bonus
        ∨ (compute cfg inp).bundleBonus = cfg.bundle20Bonus
        ∨ (compute cfg inp).bundleBonus = 0) := by
  refine ⟨le_max_left 0 _, le_max_left 0 _, le_max_left 0 _,
    le_max_left 0 _, le_max_left 0 _, ?_⟩
  simp only [compute, bundleBonus]
  split_ifs <;> simp

/-- C5: division by zero is guarded: when the normalized `quotaArr` is 0,
`attainment` and `basePayout` are 0; when the normalized `totalDeals` is
0, `bundlePct` and `bundleBonus` are 0.  (The embedded computation is a
total function by construction.) -/
theorem zero_guards (cfg : Config) (inp : SalesInput) :
    (quotaArr cfg = 0 →
      (compute cfg inp).attainment = 0 ∧ (compute cfg inp).basePayout = 0)
    ∧ (deals inp = 0 →
      (compute cfg inp).bundlePct = 0 ∧ (compute cfg inp).bundleBonus = 0) := by
  constructor
  · intro hq
    have hnq : ¬ 0 < quotaArr cfg := by rw [hq]; exact lt_irrefl 0
    exact ⟨by simp [compute, attainment, hnq],
      by simp [compute, basePayout, attainment, hnq]⟩
  · intro hd
    have hnd : ¬ 0 < deals inp := by rw [hd]; exact lt_irrefl 0
    refine ⟨by simp [compute, bundlePct, hnd], ?_⟩
    simp only [compute, bundleBonus, bundlePct, hnd, if_false]
    norm_num

/-- Configuration for the C5 witness: raw quota 0. -/
def cfgW5 : Config := ⟨0, 250, 500, 1000⟩

/-- Sales input for the C5 witness: raw total deals 0. -/
def inpW5 : SalesInput := ⟨10, 0, 3, 0, 0, false, 0⟩

/-- C5 witness: both guards applied at quota 0 and total deals 0. -/
theorem zero_guards_witness :
    quotaArr cfgW5 = 0 ∧ deals inpW5 = 0
    ∧ ((compute cfgW5 inpW5).attainment = 0
      ∧ (compute cfgW5 inpW5).basePayout = 0)
    ∧ ((compute cfgW5 inpW5).bundlePct = 0
      ∧ (compute cfgW5 inpW5).bundleBonus = 0) :=
  ⟨by norm_num [quotaArr, cfgW5, max_def], by norm_num [deals, inpW5, max_def],
   (zero_guards cfgW5 inpW5).1 (by norm_num [quotaArr, cfgW5, max_def]),
   (zero_guards cfgW5 inpW5).2 (by norm_num [deals, inpW5, max_def])⟩

/-- C6: the bundle bonus is tiered and non-cumulative: it equals
`bundle35Bonus` when `bundlePct ≥ 0.35`, else `bundle20Bonus` when
`bundlePct ≥ 0.20`, else 0 (tiers never stack); and `bundlePct > 1`
(possible when `bundleCount` exceeds `totalDeals`) still resolves to the
highest tier. -/
theorem bundleBonus_tiers (cfg : Config) (inp : SalesInput) :
    (compute cfg inp).bundleBonus
      = (if (compute cfg inp).bundlePct ≥ 35 / 100 then cfg.bundle35Bonus
        else if (compute cfg inp).bundlePct ≥ 20 / 100 then cfg.bundle20Bonus
        else 0)
    ∧ (1 < (compute cfg inp).bundlePct →
        (compute cfg inp).bundleBonus = cfg.bundle35Bonus) := by
  constructor
  · rfl
  · intro hgt
    have h35 : bundlePct inp ≥ 35 / 100 :=
      le_trans (by norm_num : (35 : ℚ) / 100 ≤ 1) (le_of_lt hgt)
    simp [compute, bundleBonus, h35]

/-- Configuration for the C6 witness. -/
def cfgW6 : Config := ⟨72000, 5833, 500, 1000⟩

/-- Sales input for the C6 witness: more bundles (8) than deals (5). -/
def inpW6 : SalesInput := ⟨0, 5, 8, 0, 0, false, 0⟩

/-- C6 witness: with 8 bundles out of 5 deals, `bundlePct = 8/5 > 1` and
the 35%-tier bonus is paid. -/
theorem bundleBonus_tiers_witness :
    1 < (compute cfgW6 inpW6).bundlePct
      ∧ (compute cfgW6 inpW6).bundleBonus = cfgW6.bundle35Bonus := by
  have hgt : 1 < (compute cfgW6 inpW6).bundlePct := by
    norm_num [compute, bundlePct, deals, bundles, inpW6, max_def]
  exact ⟨hgt, (bundleBonus_tiers cfgW6 inpW6).2 hgt⟩

/-- C7: when `useOverQuotaBundleShare` is false, the accelerator is
`(overARR / 12) * 1.25` and the whole breakdown is independent of
`overQuotaBundleSharePct`: two runs differing only in that percentage
return identical breakdowns. -/
theorem toggle_off_share_independent (cfg : Config) (inp : SalesInput)
    (p₁ p₂ : ℚ) (hoff : inp.useOverQuotaBundleShare = false) :
    compute cfg { inp with overQuotaBundleSharePct := p₁ }
      = compute cfg { inp with overQuotaBundleSharePct := p₂ }
    ∧ (compute cfg inp).accelerator
        = (compute cfg inp).overARR / 12 * (125 / 100) := by
  obtain ⟨a, d, bc, k, c, fl, pct⟩ := inp
  have hf : fl = false := hoff
  subst hf
  exact ⟨rfl, rfl⟩

/-- Configuration for the C7 witness. -/
def cfgW7 : Config := ⟨72000, 5833, 500, 1000⟩

/-- Sales input for the C7 witness: share toggle off. -/
def inpW7 : SalesInput := ⟨93600, 22, 7, 100, 0, false, 0⟩

/-- C7 witness: with the toggle off, share percentages 30 and 70 give
the same breakdown, and the accelerator follows the base formula. -/
theorem toggle_off_share_independent_witness :
    inpW7.useOverQuotaBundleShare = false
    ∧ (compute cfgW7 { inpW7 with overQuotaBundleSharePct := 30 }
        = compute cfgW7 { inpW7 with overQuotaBundleSharePct := 70 }
      ∧ (compute cfgW7 inpW7).accelerator
          = (compute cfgW7 inpW7).overARR / 12 * (125 / 100)) :=
  ⟨rfl, toggle_off_share_independent cfgW7 inpW7 30 70 rfl⟩

/-- C8: `overARR = max(0, arrSold - quotaArr)` on the normalized values;
below quota the accelerator is 0; and with the share toggle on the
accelerator is `(overARR/12)*1.25 + (overARR/12)*(clamp(pct,0,100)/100)*0.25`. -/
theorem overARR_accelerator_formula (cfg : Config) (inp : SalesInput) :
    (compute cfg inp).overARR = max 0 (arr inp - quotaArr cfg)
    ∧ (arr inp < quotaArr cfg → (compute cfg inp).accelerator = 0)
    ∧ (inp.useOverQuotaBundleShare = true →
        (compute cfg inp).accelerator
          = overARR cfg inp / 12 * (125 / 100)
            + overARR cfg inp / 12
              * (clampPct inp.overQuotaBundleSharePct / 100) * (25 / 100)) := by
  refine ⟨rfl, ?_, ?_⟩
  · intro hlt
    have hle : arr inp - quotaArr cfg ≤ 0 := sub_nonpos.mpr (le_of_lt hlt)
    have hz : overARR cfg inp = 0 := max_eq_left hle
    simp [compute, accelerator, hz]
  · intro hon
    simp [compute, accelerator, hon]

/-- Configuration for the C8 witness. -/
def cfgW8 : Config := ⟨72000, 5833, 500, 1000⟩

/-- Sales input for the C8 witness: below quota, share toggle on. -/
def inpW8 : SalesInput := ⟨50000, 22, 7, 100, 0, true, 40⟩

/-- C8 witness: below quota with the toggle on, the accelerator is 0 and
matches the toggled-on formula. -/
theorem overARR_accelerator_formula_witness :
    arr inpW8 < quotaArr cfgW8
    ∧ inpW8.useOverQuotaBundleShare = true
    ∧ (compute cfgW8 inpW8).overARR = max 0 (arr inpW8 - quotaArr cfgW8)
    ∧ (compute cfgW8 inpW8).accelerator = 0
    ∧ (compute cfgW8 inpW8).accelerator
        = overARR cfgW8 inpW8 / 12 * (125 / 100)
          + overARR cfgW8 inpW8 / 12
            * (clampPct inpW8.overQuotaBundleSharePct / 100) * (25 / 100) := by
  have hlt : arr inpW8 < quotaArr cfgW8 := by
    norm_num [arr, quotaArr, inpW8, cfgW8, max_def]
  exact ⟨hlt, rfl, (overARR_accelerator_formula cfgW8 inpW8).1,
    (overARR_accelerator_formula cfgW8 inpW8).2.1 hlt,
    (overARR_accelerator_formula cfgW8 inpW8).2.2 rfl⟩

/-- The base payout is monotone in the normalized ARR sold. -/
lemma basePayout_mono (cfg : Config) (inp₁ inp₂ : SalesInput)
    (hA : arr inp₁ ≤ arr inp₂) :
    basePayout cfg inp₁ ≤ basePayout cfg inp₂ := by
  unfold basePayout attainment
  by_cases hq : 0 < quotaArr cfg
  · simp only [if_pos hq]
    refine mul_le_mul_of_nonneg_right (min_le_min le_rfl ?_) (le_max_left 0 _)
    exact (div_le_div_iff_of_pos_right hq).mpr hA
  · simp [hq]

/-- The over-quota ARR is monotone in the normalized ARR sold. -/
lemma overARR_mono (cfg : Config) (inp₁ inp₂ : SalesInput)
    (hA : arr inp₁ ≤ arr inp₂) :
    overARR cfg inp₁ ≤ overARR cfg inp₂ :=
  max_le_max le_rfl (sub_le_sub_right hA _)

/-- The accelerator is monotone in the normalized ARR sold when the
toggle and share percentage are held fixed. -/
lemma accelerator_mono (cfg : Config) (inp₁ inp₂ : SalesInput)
    (hA : arr inp₁ ≤ arr inp₂)
    (hfl : inp₁.useOverQuotaBundleShare = inp₂.useOverQuotaBundleShare)
    (hpct : inp₁.overQuotaBundleSharePct = inp₂.overQuotaBundleSharePct) :
    accelerator cfg inp₁ ≤ accelerator cfg inp₂ := by
  have hov := overARR_mono cfg inp₁ inp₂ hA
  have h12 : overARR cfg inp₁ / 12 ≤ overARR cfg inp₂ / 12 :=
    (div_le_div_iff_of_pos_right (by norm_num)).mpr hov
  have hs : (0 : ℚ) ≤ clampPct inp₂.overQuotaBundleSharePct / 100 :=
    div_nonneg (le_min (by norm_num) (le_max_left 0 _)) (by norm_num)
  unfold accelerator
  rw [hfl, hpct]
  split_ifs
  · exact add_le_add (mul_le_mul_of_nonneg_right h12 (by norm_num))
      (mul_le_mul_of_nonneg_right
        (mul_le_mul_of_nonneg_right h12 hs) (by norm_num))
  · exact mul_le_mul_of_nonneg_right h12 (by norm_num)

/-- C10: holding every other input fixed, `total` is monotone
non-decreasing in `arrSold`: the base payout and accelerator are
non-decreasing in it and the other components do not depend on it. -/
theorem total_mono_in_arrSold (cfg : Config) (inp : SalesInput)
    (a₁ a₂ : ℚ) (h : a₁ ≤ a₂) :
    (compute cfg { inp with arrSold := a₁ }).total
      ≤ (compute cfg { inp with arrSold := a₂ }).total := by
  obtain ⟨a0, d, bc, k, c, fl, pct⟩ := inp
  show total cfg ⟨a₁, d, bc, k, c, fl, pct⟩
    ≤ total cfg ⟨a₂, d, bc, k, c, fl, pct⟩
  have hA : arr ⟨a₁, d, bc, k, c, fl, pct⟩ ≤ arr ⟨a₂, d, bc, k, c, fl, pct⟩ :=
    max_le_max le_rfl h
  have hbase := basePayout_mono cfg _ _ hA
  have hacc := accelerator_mono cfg _ _ hA rfl rfl
  unfold total
  exact sub_le_sub_right
    (add_le_add (add_le_add (add_le_add hbase (le_refl _)) hacc) (le_refl _)) _

/-- Configuration for the C10 witness. -/
def cfgW10 : Config := ⟨72000, 5833, 500, 1000⟩

/-- Sales input for the C10 witness. -/
def inpW10 : SalesInput := ⟨0, 22, 7, 100, 50, true, 40⟩

/-- C10 witness: raising ARR sold from 1000 to 2000 does not decrease
the total. -/
theorem total_mono_in_arrSold_witness :
    (1000 : ℚ) ≤ 2000
    ∧ (compute cfgW10 { inpW10 with arrSold := 1000 }).total
        ≤ (compute cfgW10 { inpW10 with arrSold := 2000 }).total :=
  ⟨by norm_num, total_mono_in_arrSold cfgW10 inpW10 1000 2000 (by norm_num)⟩

end Boostly
